import Mathlib

/-!
Verification of the zfs_sync replication engine against its design notes.

The Python sources are shallowly embedded: pure decision logic becomes Lean
functions, subprocess interaction becomes explicit event traces parameterised
by oracles for the external world, and Python numeric behaviour is modelled
with Nat / Int / Rat.
-/

namespace ZfsSync

/-! ## Transfer planner (zfs_sync.py, run_job lines 89-124)

run_job sets needs_initial_transfer := true when the destination dataset is
missing, or when the verified-common-snapshot list is empty; otherwise it takes
the first element of the (descending-sorted) list as the incremental base. -/

inductive TransferMode where
  | full
  | incremental (base : String)
deriving DecidableEq, Repr

/-- Decision portion of run_job (zfs_sync.py lines 89-124): destination absent
means a full initial transfer; otherwise the head of the verified common
snapshot list is the incremental base, and an empty list falls back to full. -/
def determine_transfer_type (dest_exists : Bool) (common_snapshots : List String) :
    TransferMode :=
  if !dest_exists then .full
  else
    match common_snapshots with
    | [] => .full
    | s :: _ => .incremental s

/-! ## create_snapshot (zfs_sync_lib/zfs.py lines 98-123)

The three subprocess interactions are supplied as booleans: the existence
probe before creation, the success of the zfs snapshot command, and the
verification probe after creation. -/

/-- create_snapshot from zfs_sync_lib/zfs.py lines 98-123. Returns early with
true when the snapshot already exists; otherwise runs the create command
(false on exception), and when not in dry-run re-probes and returns false if
the snapshot is still missing. -/
def create_snapshot (dry_run exists_before create_ok exists_after : Bool) : Bool :=
  if exists_before then true
  else if create_ok then
    if !dry_run then
      if exists_after then true else false
    else true
  else false

/-! ## execute_command result shapes (zfs_sync_lib/utils.py lines 130-149,
src/app/utils.py lines 246-265)

The except-chain of execute_command: with check=False a CalledProcessError and
a TimeoutExpired are returned as the exception object itself, while
FileNotFoundError and generic exceptions are converted to synthesized
CompletedProcess values (exit 127 resp. 1). -/

/-- Outcome of the underlying subprocess.run call. -/
inductive RunOutcome where
  | completed (rc : Int) (out err : String)
  | calledProcessError (rc : Int) (out err : String)
  | timeoutExpired
  | fileNotFound (msg : String)
  | otherError (msg : String)
deriving DecidableEq, Repr

/-- What execute_command hands back to its caller. The CalledProcessError
object still carries a returncode and captured output; the TimeoutExpired
object carries no returncode at all. -/
inductive ExecReturn where
  | completedProcess (rc : Int) (out err : String)
  | calledProcessErrorObj (rc : Int) (out err : String)
  | timeoutExpiredObj
  | raised
deriving DecidableEq, Repr

/-- Exception dispatch of execute_command (zfs_sync_lib/utils.py lines
130-149; identical in src/app/utils.py lines 246-265). -/
def execute_command_result (check : Bool) (outcome : RunOutcome) : ExecReturn :=
  match outcome with
  | .completed rc out err => .completedProcess rc out err
  | .calledProcessError rc out err =>
      if check then .raised else .calledProcessErrorObj rc out err
  | .timeoutExpired => if check then .raised else .timeoutExpiredObj
  | .fileNotFound msg => if check then .raised else .completedProcess 127 "" msg
  | .otherError msg => if check then .raised else .completedProcess 1 "" msg

/-- True when the returned value exposes a returncode field, i.e. satisfies
the declared stdout/stderr/exitCode contract. -/
def hasReturnCode : ExecReturn → Bool
  | .completedProcess _ _ _ => true
  | .calledProcessErrorObj _ _ _ => true
  | .timeoutExpiredObj => false
  | .raised => false

/-! ## Pipeline wait loop (zfs_sync_lib/transfer.py lines 164-186)

The executor waits on every stage in order; each non-zero exit code overwrites
final_return_code, and success requires the final value to be zero. -/

/-- Wait loop of execute_transfer_pipeline (zfs_sync_lib/transfer.py lines
164-176): first component collects the exit code of every waited stage in
pipeline order, second component is final_return_code, overwritten by each
non-zero stage exit. -/
def wait_all_stages (rcs : List Int) : List Int × Int :=
  rcs.foldl (fun st rc => (st.1 ++ [rc], if rc ≠ 0 then rc else st.2)) ([], 0)

/-- final_return_code after the wait loop. -/
def final_return_code (rcs : List Int) : Int := (wait_all_stages rcs).2

/-- success flag of execute_transfer_pipeline (line 186). -/
def pipeline_success (rcs : List Int) : Bool := final_return_code rcs == 0

/-! ## Progress sample emission (zfs_sync_lib/transfer.py lines 63-102)

The stderr reader keeps total_bytes_reported (initially 0) and only advances
the progress bar when a parsed byte count strictly exceeds it. -/

/-- One parsed size token applied to the reader state (acc of emitted samples,
last reported byte count): zfs_sync_lib/transfer.py lines 76-82. -/
def progress_step (st : List Int × Int) (current_bytes : Int) : List Int × Int :=
  if current_bytes > st.2 then (st.1 ++ [current_bytes], current_bytes) else st

/-- Samples emitted for a whole stream of parsed size tokens. -/
def emit_progress_samples (parsed : List Int) : List Int :=
  (parsed.foldl progress_step ([], 0)).1

/-! ## Size parsing (zfs_sync_lib/transfer.py lines 20-41, src/app/transfer.py
lines 24-52)

Python's float() is modelled exactly on plain decimal literals (optional sign,
digits, at most one decimal point, surrounding whitespace absorbed, no
exponent forms); every input relevant here is of that shape, and the modelled
values (halves times powers of 1024) are exactly representable, so no
floating-point rounding is lost. int() truncation toward zero is
truncDivPow10. -/

/-- Strip leading and trailing whitespace from a character list (str.strip,
and the whitespace absorption of float() and int()). -/
def trimChars (cs : List Char) : List Char :=
  ((cs.dropWhile Char.isWhitespace).reverse.dropWhile Char.isWhitespace).reverse

/-- str.split on a single separator character. -/
def splitOnChar (sep : Char) : List Char → List (List Char)
  | [] => [[]]
  | c :: rest =>
    match splitOnChar sep rest with
    | h :: t => if c = sep then [] :: h :: t else (c :: h) :: t
    | [] => [[c]]

/-- Value of a digit sequence, most significant first. -/
def digitsVal (cs : List Char) : Nat :=
  cs.foldl (fun a c => 10 * a + (c.toNat - 48)) 0

/-- Python float() restricted to plain decimal literals: whitespace is
stripped, an optional sign, digits with at most one decimal point, at least
one digit overall. The value is represented exactly as a signed numerator
over a power-of-ten denominator; every value the claims touch (halves times
powers of 1024) is exactly representable in binary floating point, so no
rounding behaviour is lost on them. -/
def pyFloatChars? (cs0 : List Char) : Option (Int × Nat) :=
  let cs := trimChars cs0
  let sgn : Int × List Char :=
    match cs with
    | '-' :: rest => (-1, rest)
    | '+' :: rest => (1, rest)
    | _ => (1, cs)
  match splitOnChar '.' sgn.2 with
  | [ip] =>
      if ip ≠ [] ∧ ip.all Char.isDigit then some (sgn.1 * digitsVal ip, 0)
      else none
  | [ip, fp] =>
      if (ip ≠ [] ∨ fp ≠ []) ∧ ip.all Char.isDigit ∧ fp.all Char.isDigit then
        some (sgn.1 * ((digitsVal ip * 10 ^ fp.length + digitsVal fp : Nat) : Int),
          fp.length)
      else none
  | _ => none

/-- Python int() on a string: whitespace stripped, optional sign, digits. -/
def pyIntChars? (cs0 : List Char) : Option Int :=
  let cs := trimChars cs0
  match cs with
  | '-' :: rest =>
      if rest ≠ [] ∧ rest.all Char.isDigit then some (-(digitsVal rest : Int)) else none
  | '+' :: rest =>
      if rest ≠ [] ∧ rest.all Char.isDigit then some (digitsVal rest) else none
  | _ =>
      if cs ≠ [] ∧ cs.all Char.isDigit then some (digitsVal cs) else none

/-- Python int() applied to a float: truncation toward zero of the exact
value n / 10 ^ p. -/
def truncDivPow10 (n : Int) (p : Nat) : Int :=
  if 0 ≤ n then ((n.toNat / 10 ^ p : Nat) : Int)
  else -(((-n).toNat / 10 ^ p : Nat) : Int)

/-- unit_multipliers dict of _parse_zfs_size, in insertion order. -/
def unit_multipliers : List (Char × Nat) :=
  [('K', 1024), ('M', 1024 ^ 2), ('G', 1024 ^ 3), ('T', 1024 ^ 4), ('P', 1024 ^ 5)]

/-- The unit-detection loop of the lib parser: the first unit letter the
token ends with is stripped (multiplier 1 when none matches). -/
def stripUnitChars (cs : List Char) : Nat × List Char :=
  match unit_multipliers.find? (fun p => cs.getLast? = some p.1) with
  | some p => (p.2, cs.dropLast)
  | none => (1, cs)

/-- _parse_zfs_size from zfs_sync_lib/transfer.py lines 20-41: uppercase (no
trim), strip one trailing B, strip one trailing unit letter, float-parse the
remainder, multiply, truncate; 0 when the float parse fails. -/
def parse_zfs_size (size_str0 : String) : Int :=
  let s1 := size_str0.data.map Char.toUpper
  let s2 := if s1.getLast? = some 'B' then s1.dropLast else s1
  let um := stripUnitChars s2
  match pyFloatChars? um.2 with
  | some f => truncDivPow10 (f.1 * (um.1 : Int)) f.2
  | none => 0

/-- Multiplier for a single unit character, if any. -/
def unitMul? (c : Char) : Option Nat :=
  (unit_multipliers.find? (fun p => p.1 = c)).map (fun p => p.2)

/-- _parse_zfs_size from src/app/transfer.py lines 24-52: uppercase and trim,
empty yields 0, the last character is checked for a unit first, then a
trailing B (only when more characters remain) is stripped and the new last
character checked for a unit; float-parse, multiply, truncate. -/
def parse_zfs_size_app (size_str0 : String) : Int :=
  let s := trimChars (size_str0.data.map Char.toUpper)
  match s.getLast? with
  | none => 0
  | some lc =>
    let step : Nat × List Char :=
      match unitMul? lc with
      | some m => (m, s.dropLast)
      | none =>
        if lc = 'B' ∧ 1 < s.length then
          let s2 := s.dropLast
          match s2.getLast? with
          | some lc2 =>
            match unitMul? lc2 with
            | some m => (m, s2.dropLast)
            | none => (1, s2)
          | none => (1, s2)
        else (1, s)
    match pyFloatChars? step.2 with
    | some f => truncDivPow10 (f.1 * (step.1 : Int)) f.2
    | none => 0

/-- parseSize as the claim words it: strip whitespace, uppercase, strip an
optional trailing B, map a trailing unit letter to its binary multiplier,
float-parse the remainder, multiply, truncate (0 when parsing fails). The
steps after the initial trim coincide with the lib parser's. -/
def parseSize_spec (s : String) : Int :=
  let t := (trimChars s.data).map Char.toUpper
  let t2 := if t.getLast? = some 'B' then t.dropLast else t
  let um := stripUnitChars t2
  match pyFloatChars? um.2 with
  | some f => truncDivPow10 (f.1 * (um.1 : Int)) f.2
  | none => 0

/-! ## Snapshot GUID maps (zfs_sync_lib/zfs.py lines 42-95)

get_snapshots_with_guids produces a Python dict from snapshot name to guid;
modelled as an association list with distinct keys. -/

/-- Dict access: the value stored under a key. -/
def lookupGuid : List (String × String) → String → Option String
  | [], _ => none
  | p :: rest, k => if p.1 = k then some p.2 else lookupGuid rest k

/-- Lexicographic less-or-equal on code-point sequences: Python's string
comparison. -/
def leChars : List Char → List Char → Bool
  | [], _ => true
  | _ :: _, [] => false
  | a :: as, b :: bs => if a = b then leChars as bs else decide (a < b)

/-- Descending order on snapshot names (list.sort(reverse=True)). -/
def strGe (a b : String) : Prop := leChars b.data a.data = true

instance : DecidableRel strGe :=
  fun a b => inferInstanceAs (Decidable (leChars b.data a.data = true))

/-- find_verified_common_snapshots (zfs_sync_lib/zfs.py lines 73-95): keep the
source entries whose name carries the same guid on the destination, take the
names, sort descending. -/
def find_verified_common_snapshots (src_snaps dst_snaps : List (String × String)) :
    List String :=
  List.insertionSort strGe
    ((src_snaps.filter
        (fun p => decide (lookupGuid dst_snaps p.1 = some p.2))).map Prod.fst)

/-! ## Dry-run command dispatch (zfs_sync_lib/utils.py lines 109-123,
src/app/utils.py lines 161-239) -/

/-- Whether a spawned subprocess results, or a synthesized CompletedProcess is
returned without spawning anything. -/
inductive CmdOutcome where
  | spawned
  | synthesized (rc : Int) (out err : String)
deriving DecidableEq, Repr

/-- os.path.basename for the executable word. -/
def basename (s : String) : String :=
  String.mk (((splitOnChar '/' s.data).getLast?).getD s.data)

/-- read_only_zfs set of src/app/utils.py line 163. -/
def read_only_zfs : List String := ["list", "get", "version"]

/-- action_zfs set of src/app/utils.py line 164. -/
def action_zfs : List String := ["snapshot", "destroy", "send", "receive", "rename"]

/-- action_sanoid set of src/app/utils.py line 165. -/
def action_sanoid : List String := ["--take-snapshots", "--prune-snapshots"]

/-- Classification of src/app/utils.py lines 170-189 (list-argument path):
zfs action subcommands and unclassified zfs subcommands are actions, the
read-only trio is not; sanoid is an action only with a mutating flag; syncoid
is an action unless -n is present; anything else is not an action. -/
def is_action_command (command_args : List String) : Bool :=
  match command_args with
  | [] => false
  | cmd0 :: rest =>
    let cmd_base := basename cmd0
    if cmd_base = "zfs" then
      match rest with
      | sub :: _ =>
        if action_zfs.contains sub then true
        else if read_only_zfs.contains sub then false
        else true
      | [] => true
    else if cmd_base = "sanoid" then
      command_args.any (fun a => action_sanoid.contains a)
    else if cmd_base = "syncoid" then
      !(command_args.contains "-n")
    else false

/-- Dry-run dispatch of zfs_sync_lib/utils.py lines 109-123: under dry-run
every command is replaced by a synthesized success (exit 0, empty output);
otherwise subprocess.run spawns it. -/
def execute_command_lib_dispatch (dry_run : Bool) (_command_args : List String) :
    CmdOutcome :=
  if dry_run then .synthesized 0 "" "" else .spawned

/-- Dry-run dispatch of src/app/utils.py lines 219-239: only commands
classified as actions are synthesized under dry-run; read-only commands are
still spawned. -/
def execute_command_app_dispatch (dry_run : Bool) (command_args : List String) :
    CmdOutcome :=
  if dry_run && is_action_command command_args then .synthesized 0 "" "" else .spawned

/-! ## End-of-stream progress forcing (zfs_sync_lib/transfer.py lines 92-102)

After EOF on the diagnostic stream: with a known total and a shortfall below
ten percent of it, one final update advances completed to total; with a larger
shortfall only a warning is logged; with no known total the bar is closed at
the reported count. Python's literal 0.1 is modelled by the exact rational
1/10. -/

/-- The (completed, total) of the final forced progress update, if one is
emitted. -/
def final_progress_sample (total_size : Option Nat) (total_bytes_reported : Nat) :
    Option (Nat × Nat) :=
  match total_size with
  | some total =>
    if total_bytes_reported < total then
      if (total : ℚ) - (total_bytes_reported : ℚ) < (total : ℚ) * (1 / 10) then
        some (total, total)
      else none
    else none
  | none => some (total_bytes_reported, total_bytes_reported)

/-! ## perform_full_transfer as a subprocess-event trace
(zfs_sync_lib/transfer.py lines 230-353)

External process results are supplied by an oracle from the spawned argv to
its stdout (none models a raised exception); pipeline stage exit codes by a
second oracle. Events record every subprocess creation, distinguishing
planning probes from pipeline stages. -/

structure RunCfg where
  dry_run : Bool
  ssh_timeout : Nat
  ssh_extra_opts : List String
  use_compression : Bool
  resume_support : Bool
  recursive : Bool
  source_host : String
  source_dataset : String
  dest_host : String
  dest_dataset : String
  ssh_user : String

/-- A subprocess creation event. -/
inductive Ev where
  | probeSpawn (cmd : List String)
  | stageSpawn (cmd : List String)
deriving DecidableEq, Repr

/-- Whether the event is a pipeline-stage Popen (execute_transfer_pipeline)
rather than a planning probe. -/
def Ev.isStage : Ev → Bool
  | .probeSpawn _ => false
  | .stageSpawn _ => true

/-- SSH wrapper of zfs_sync_lib/utils.py lines 76-83. -/
def ssh_base (ssh_timeout : Nat) (ssh_user host : String) : List String :=
  ["ssh", "-o", "ConnectTimeout=" ++ toString ssh_timeout, "-o", "BatchMode=yes",
   "-o", "StrictHostKeyChecking=no", "-o", "UserKnownHostsFile=/dev/null",
   ssh_user ++ "@" ++ host]

/-- Remote commands are wrapped in the SSH invocation; local ones run as-is. -/
def wrap_command (cfg : RunCfg) (host : String) (args : List String) : List String :=
  if host = "local" then args
  else ssh_base cfg.ssh_timeout cfg.ssh_user host ++ args

/-- execute_command (zfs_sync_lib/utils.py) as a trace step: under dry-run a
synthesized success with empty output and no spawn; otherwise one spawned
subprocess whose stdout comes from the oracle (none models an exception under
check=True, as the callers below use it). -/
def execute_command_run (cfg : RunCfg) (oracle : List String → Option String)
    (host : String) (args : List String) : List Ev × Option String :=
  let full := wrap_command cfg host args
  if cfg.dry_run then ([], some "")
  else ([.probeSpawn full], oracle full)

/-- estimate_transfer_size (zfs_sync_lib/zfs.py lines 330-352), full-send
branch used by perform_full_transfer: list the snapshot's used size, falling
back to the dataset's used size when that fails. -/
def estimate_transfer_size_full (cfg : RunCfg) (oracle : List String → Option String)
    (new_snapshot : String) : List Ev × Option Int :=
  let full_snap_name := cfg.source_dataset ++ "@" ++ new_snapshot
  let cmd := ["zfs", "list", "-o", "used", "-Hp", "-t", "snapshot", full_snap_name]
  let r1 := execute_command_run cfg oracle cfg.source_host cmd
  match r1.2.bind (fun out => pyIntChars? out.data) with
  | some n => (r1.1, some n)
  | none =>
    let cmd2 := ["zfs", "list", "-o", "used", "-Hp", "-d", "0", cfg.source_dataset]
    let r2 := execute_command_run cfg oracle cfg.source_host cmd2
    (r1.1 ++ r2.1, r2.2.bind (fun out => pyIntChars? out.data))

/-- Modelled from the spec: get_receive_resume_token is imported by
zfs_sync_lib/transfer.py from zfs_sync_lib/zfs.py but its definition is absent
from the sources; spec section 4.3 has the planner query the destination for a
pending receive-resume token. Modelled as one read-only probe of the
destination whose trimmed output is the token, with a dash or empty output
meaning no token. -/
def get_receive_resume_token (cfg : RunCfg) (oracle : List String → Option String) :
    List Ev × Option String :=
  let cmd := ["zfs", "get", "-H", "-o", "value", "receive_resume_token", cfg.dest_dataset]
  let r := execute_command_run cfg oracle cfg.dest_host cmd
  match r.2 with
  | some out =>
    let t := trimChars out.data
    (r.1, if t = [] ∨ t = ['-'] then none else some (String.mk t))
  | none => (r.1, none)

/-- check_command_exists (zfs_sync_lib/utils.py lines 154-169): always spawns
a version probe, with a which fallback; not dry-run aware. -/
def check_command_exists_run (oracle : List String → Option String) (c : String) :
    List Ev × Bool :=
  match oracle [c, "--version"] with
  | some _ => ([.probeSpawn [c, "--version"]], true)
  | none =>
    match oracle ["which", c] with
    | some _ => ([.probeSpawn [c, "--version"], .probeSpawn ["which", c]], true)
    | none => ([.probeSpawn [c, "--version"], .probeSpawn ["which", c]], false)

/-- get_compression_commands (zfs_sync_lib/transfer.py lines 215-227). -/
def get_compression_commands (cfg : RunCfg) (oracle : List String → Option String) :
    List Ev × Option (List String) × Option (List String) :=
  if cfg.use_compression then
    let rp := check_command_exists_run oracle "pigz"
    if rp.2 then (rp.1, some ["pigz"], some ["pigz", "-d"])
    else
      let rg := check_command_exists_run oracle "gzip"
      if rg.2 then (rp.1 ++ rg.1, some ["gzip"], some ["gzip", "-d"])
      else (rp.1 ++ rg.1, none, none)
  else ([], none, none)

/-- execute_transfer_pipeline (zfs_sync_lib/transfer.py lines 105-209) as a
trace: dry-run only logs the stages and reports success; otherwise every stage
is spawned and the chain succeeds iff final_return_code over the oracle-given
stage exit codes is zero. -/
def execute_transfer_pipeline_run (cfg : RunCfg)
    (stage_rcs : List (List String) → List Int)
    (pipeline_cmds : List (List String)) : List Ev × Bool :=
  if cfg.dry_run then ([], true)
  else (pipeline_cmds.map Ev.stageSpawn, pipeline_success (stage_rcs pipeline_cmds))

/-- SSH options used inside the pipeline (zfs_sync_lib/transfer.py lines
295-303). -/
def ssh_base_opts (cfg : RunCfg) : List String :=
  ["-o", "ConnectTimeout=" ++ toString cfg.ssh_timeout, "-o", "BatchMode=yes"] ++
    cfg.ssh_extra_opts

/-- perform_full_transfer (zfs_sync_lib/transfer.py lines 230-353) as a trace
of subprocess events plus its boolean result. Size estimation, the optional
resume-token probe and the compression-tool checks all run before the topology
dispatch; the remote-to-remote case reaches the final else and returns
failure. -/
def perform_full_transfer_run (cfg : RunCfg) (oracle : List String → Option String)
    (stage_rcs : List (List String) → List Int) (new_snapshot_name : String) :
    List Ev × Bool :=
  let est := estimate_transfer_size_full cfg oracle new_snapshot_name
  let send_cmd_base : List String := ["zfs", "send", "-p"]
  let recv_cmd_base : List String := ["zfs", "receive", "-s", "-u", "-v"]
  let tok :=
    if cfg.resume_support then get_receive_resume_token cfg oracle
    else ([], none)
  let using_resume_token := tok.2.isSome
  let send_args : List String :=
    match tok.2 with
    | some t => ["-t", t]
    | none => [cfg.source_dataset ++ "@" ++ new_snapshot_name]
  let send_cmd :=
    send_cmd_base ++
      (if !using_resume_token then
        (if cfg.recursive then ["-R"] else []) ++ ["-v"]
      else []) ++ send_args
  let comp := get_compression_commands cfg oracle
  let stages0 := [send_cmd] ++ (match comp.2.1 with | some c => [c] | none => [])
  let probe_evs := est.1 ++ tok.1 ++ comp.1
  if cfg.source_host = "local" ∧ cfg.dest_host = "local" then
    let stages := stages0 ++
      (match comp.2.2 with | some d => [d] | none => []) ++
      [recv_cmd_base ++ [cfg.dest_dataset]]
    let pr := execute_transfer_pipeline_run cfg stage_rcs stages
    (probe_evs ++ pr.1, pr.2)
  else if cfg.source_host = "local" then
    let remote_cmd_str :=
      String.intercalate " "
        ((match comp.2.2 with | some d => d ++ ["|"] | none => []) ++
          recv_cmd_base ++ [cfg.dest_dataset])
    let stages := stages0 ++
      [["ssh"] ++ ssh_base_opts cfg ++
        [cfg.ssh_user ++ "@" ++ cfg.dest_host, remote_cmd_str]]
    let pr := execute_transfer_pipeline_run cfg stage_rcs stages
    (probe_evs ++ pr.1, pr.2)
  else if cfg.dest_host = "local" then
    let remote_cmd_str :=
      String.intercalate " " send_cmd ++
        (match comp.2.1 with
         | some c => " | " ++ String.intercalate " " c
         | none => "")
    let stages :=
      [["ssh"] ++ ssh_base_opts cfg ++
        [cfg.ssh_user ++ "@" ++ cfg.source_host, remote_cmd_str]] ++
      stages0.dropLast ++
      (match comp.2.2 with | some d => [d] | none => []) ++
      [recv_cmd_base ++ [cfg.dest_dataset]]
    let pr := execute_transfer_pipeline_run cfg stage_rcs stages
    (probe_evs ++ pr.1, pr.2)
  else
    (probe_evs, false)

/-- A concrete remote-to-remote job configuration, dry-run unset, no
compression, no resume support. -/
def cfg0 : RunCfg where
  dry_run := false
  ssh_timeout := 10
  ssh_extra_opts := []
  use_compression := false
  resume_support := false
  recursive := false
  source_host := "hostA"
  source_dataset := "tank/data"
  dest_host := "hostB"
  dest_dataset := "backup/data"
  ssh_user := "root"

end ZfsSync

namespace ZfsSync

/-! ### Theorems for the planner, snapshot creation, result shape, wait loop -/

/-- C2 The transfer planner chooses Full when the destination dataset does not
exist; otherwise, a non-empty verified-common-snapshot list yields Incremental
with base equal to its head, and an empty list yields Full even though the
destination exists. -/
theorem C2_transfer_type (dest_exists : Bool) (common_snapshots : List String) :
    (dest_exists = false → determine_transfer_type dest_exists common_snapshots = .full) ∧
    (dest_exists = true → common_snapshots = [] →
      determine_transfer_type dest_exists common_snapshots = .full) ∧
    (dest_exists = true → ∀ s rest, common_snapshots = s :: rest →
      determine_transfer_type dest_exists common_snapshots = .incremental s) := by
  refine ⟨?_, ?_, ?_⟩
  · rintro rfl
    simp [determine_transfer_type]
  · rintro rfl rfl
    simp [determine_transfer_type]
  · rintro rfl s rest rfl
    simp [determine_transfer_type]

/-- C2 witness: concrete planner decisions. -/
theorem C2_transfer_type_witness :
    determine_transfer_type true ["snapB", "snapA"] = .incremental "snapB" ∧
    determine_transfer_type false ["snapB"] = .full :=
  ⟨(C2_transfer_type true ["snapB", "snapA"]).2.2 rfl "snapB" ["snapA"] rfl,
   (C2_transfer_type false ["snapB"]).1 rfl⟩

/-- C10 With dry-run unset, create_snapshot returns true only if an existence
probe confirmed the snapshot: either it already existed, or the create command
succeeded and the post-creation probe found it; a failed post-creation probe
yields false. -/
theorem C10_create_snapshot_verified (exists_before create_ok exists_after : Bool) :
    (create_snapshot false exists_before create_ok exists_after = true ↔
      (exists_before = true ∨ (create_ok = true ∧ exists_after = true))) ∧
    (create_snapshot false exists_before create_ok exists_after = true →
      (exists_before = true ∨ exists_after = true)) := by
  revert exists_before create_ok exists_after
  decide

/-- C10 witness: snapshot already present, so the early existence probe
confirms it and create_snapshot returns true. -/
theorem C10_create_snapshot_verified_witness :
    create_snapshot false true false false = true :=
  (C10_create_snapshot_verified true false false).1.mpr (Or.inl rfl)

/-- C9 With check=False, a command timeout makes execute_command return the
TimeoutExpired exception object itself, which carries no returncode: the
declared CompletedProcess-shaped contract does not hold on that path. -/
theorem C9_timeout_return_shape :
    execute_command_result false .timeoutExpired = .timeoutExpiredObj ∧
    hasReturnCode (execute_command_result false .timeoutExpired) = false := by
  decide

/-- C4 Evaluation at the failing input: with stage exit codes [0, 2, 3] the
executor waits on every stage (all three codes are collected in order) and
reports the chain as failed, but final_return_code ends as 3 — the last
non-zero exit code — although the claim and the code's own comment require the
first non-zero code, 2. -/
theorem C4_last_nonzero_wins :
    wait_all_stages [0, 2, 3] = ([0, 2, 3], 3) ∧
    pipeline_success [0, 2, 3] = false ∧
    final_return_code [0, 2, 3] ≠ 2 := by
  decide

/-! ### Progress monotonicity -/

theorem progress_fold_invariant (tokens : List Int) :
    ∀ st : List Int × Int, st.1.Sorted (· < ·) → (∀ x ∈ st.1, x ≤ st.2) →
      (tokens.foldl progress_step st).1.Sorted (· < ·) ∧
        ∀ x ∈ (tokens.foldl progress_step st).1, x ≤ (tokens.foldl progress_step st).2 := by
  induction tokens with
  | nil => exact fun st h1 h2 => ⟨h1, h2⟩
  | cons b t ih =>
    intro st h1 h2
    rw [List.foldl_cons]
    by_cases hb : b > st.2
    · have hstep : progress_step st b = (st.1 ++ [b], b) := by
        simp [progress_step, hb]
      rw [hstep]
      apply ih
      · rw [List.Sorted, List.pairwise_append]
        refine ⟨h1, List.sorted_singleton b, ?_⟩
        intro x hx y hy
        rw [List.mem_singleton] at hy
        subst hy
        exact lt_of_le_of_lt (h2 x hx) hb
      · intro x hx
        rcases List.mem_append.mp hx with h | h
        · exact le_of_lt (lt_of_le_of_lt (h2 x h) hb)
        · rw [List.mem_singleton] at h
          subst h
          exact le_refl x
    · have hstep : progress_step st b = st := by
        simp [progress_step, hb]
      rw [hstep]
      exact ih st h1 h2

/-- C7 Emitted progress samples are strictly increasing (in particular
monotonically non-decreasing) in completed bytes; a parsed value at or below
the last reported one leaves the state unchanged and emits nothing; the token
stream 50M, 30M, 80M yields exactly the samples for 50M and 80M. -/
theorem C7_progress_monotonic :
    (∀ parsed : List Int, (emit_progress_samples parsed).Sorted (· < ·)) ∧
    (∀ (st : List Int × Int) (b : Int), b ≤ st.2 → progress_step st b = st) ∧
    emit_progress_samples
        [parse_zfs_size "50M", parse_zfs_size "30M", parse_zfs_size "80M"] =
      [parse_zfs_size "50M", parse_zfs_size "80M"] := by
  refine ⟨?_, ?_, by decide⟩
  · intro parsed
    exact (progress_fold_invariant parsed ([], 0) (List.sorted_nil) (by simp)).1
  · intro st b hb
    simp [progress_step, not_lt.mpr hb]

/-- C7 witness: a token equal to the last reported count is discarded. -/
theorem C7_progress_monotonic_witness :
    (52428800 : Int) ≤ 52428800 ∧
      progress_step ([52428800], 52428800) 52428800 = ([52428800], 52428800) :=
  ⟨le_refl _, C7_progress_monotonic.2.1 ([52428800], 52428800) 52428800 (le_refl _)⟩

/-! ### Size parser -/

/-- C6 counterexample: the lib parser does not trim. On the token
with a trailing space, it returns 0, while the algorithm of the claim
(uppercase the trimmed token, strip B, map the unit, float-parse, multiply,
truncate) yields 1610612736; so, as stated for every input string, the claim
fails on the lib variant. -/
theorem C6_parse_size_counterexample :
    parse_zfs_size "1.5G " = 0 ∧ parseSize_spec "1.5G " = 1610612736 := by
  decide

/-- C6 amended: the claimed algorithm holds for the lib parser on
already-trimmed tokens (it omits only the initial trim), and both parsers
agree with the claimed concrete values; totality (never raising) holds by
construction, unparsable remainders yielding 0. -/
theorem C6_parse_size_amended :
    (∀ s : String, trimChars s.data = s.data → parse_zfs_size s = parseSize_spec s) ∧
    parse_zfs_size "1.5G" = 1610612736 ∧ parse_zfs_size "100M" = 104857600 ∧
    parse_zfs_size "" = 0 ∧ parse_zfs_size "garbage" = 0 ∧
    parse_zfs_size_app "1.5G" = 1610612736 ∧ parse_zfs_size_app "100M" = 104857600 ∧
    parse_zfs_size_app "" = 0 ∧ parse_zfs_size_app "garbage" = 0 := by
  refine ⟨?_, by decide, by decide, by decide, by decide, by decide, by decide,
    by decide, by decide⟩
  intro s h
  simp only [parse_zfs_size, parseSize_spec, h]

/-- C6 witness: the trimmed-token equivalence applied to a concrete token. -/
theorem C6_parse_size_amended_witness :
    trimChars ("1.5G" : String).data = ("1.5G" : String).data ∧
      parse_zfs_size "1.5G" = parseSize_spec "1.5G" :=
  ⟨by decide, C6_parse_size_amended.1 "1.5G" (by decide)⟩

/-! ### Verified common snapshots -/

theorem leChars_total (as : List Char) : ∀ bs, leChars as bs = true ∨ leChars bs as = true := by
  induction as with
  | nil => exact fun bs => Or.inl rfl
  | cons a as ih =>
    intro bs
    cases bs with
    | nil => exact Or.inr rfl
    | cons b bs =>
      simp only [leChars]
      by_cases hab : a = b
      · subst hab
        rw [if_pos rfl, if_pos rfl]
        exact ih bs
      · rw [if_neg hab, if_neg (Ne.symm hab)]
        rcases lt_or_gt_of_ne hab with h | h
        · exact Or.inl (decide_eq_true h)
        · exact Or.inr (decide_eq_true h)

theorem leChars_trans (as : List Char) :
    ∀ bs cs, leChars as bs = true → leChars bs cs = true → leChars as cs = true := by
  induction as with
  | nil => intro bs cs _ _; rfl
  | cons a as ih =>
    intro bs cs h1 h2
    cases bs with
    | nil => simp [leChars] at h1
    | cons b bs =>
      cases cs with
      | nil => simp [leChars] at h2
      | cons c cs =>
        simp only [leChars] at h1 h2 ⊢
        by_cases hab : a = b
        · subst hab
          rw [if_pos rfl] at h1
          by_cases hbc : a = c
          · subst hbc
            rw [if_pos rfl] at h2 ⊢
            exact ih bs cs h1 h2
          · rw [if_neg hbc] at h2 ⊢
            exact h2
        · rw [if_neg hab] at h1
          by_cases hbc : b = c
          · subst hbc
            rw [if_neg hab]
            exact h1
          · rw [if_neg hbc] at h2
            have hac : a < c :=
              lt_trans (of_decide_eq_true h1) (of_decide_eq_true h2)
            have hne : a ≠ c := ne_of_lt hac
            rw [if_neg hne]
            exact decide_eq_true hac

theorem lookupGuid_mem {l : List (String × String)} {k v : String}
    (h : lookupGuid l k = some v) : (k, v) ∈ l := by
  induction l with
  | nil => simp [lookupGuid] at h
  | cons p rest ih =>
    rw [lookupGuid] at h
    by_cases hk : p.1 = k
    · rw [if_pos hk] at h
      injection h with h2
      cases p with
      | mk a b =>
        simp only at hk h2
        subst hk
        subst h2
        exact List.mem_cons_self _ _
    · rw [if_neg hk] at h
      exact List.mem_cons_of_mem p (ih h)

theorem mem_lookupGuid {l : List (String × String)} {k v : String}
    (hnd : (l.map Prod.fst).Nodup) (h : (k, v) ∈ l) : lookupGuid l k = some v := by
  induction l with
  | nil => simp at h
  | cons p rest ih =>
    rw [List.map_cons, List.nodup_cons] at hnd
    rcases List.mem_cons.mp h with h | h
    · subst h
      simp [lookupGuid]
    · have hk : p.1 ≠ k := by
        intro he
        exact hnd.1 (he ▸ List.mem_map.mpr ⟨(k, v), h, rfl⟩)
      rw [lookupGuid, if_neg hk]
      exact ih hnd.2 h

/-- C3 find_verified_common_snapshots returns exactly the names carrying equal
GUIDs on both sides, sorted descending by name; a name with mismatched GUIDs
is never returned; and on two identical maps it returns all names (a
permutation of the key set), sorted descending. -/
theorem C3_find_verified_common (src_snaps dst_snaps : List (String × String))
    (hsrc : (src_snaps.map Prod.fst).Nodup) :
    (∀ s, s ∈ find_verified_common_snapshots src_snaps dst_snaps ↔
        ∃ g, lookupGuid src_snaps s = some g ∧ lookupGuid dst_snaps s = some g) ∧
    (find_verified_common_snapshots src_snaps dst_snaps).Sorted strGe ∧
    (∀ s gs gd, lookupGuid src_snaps s = some gs → lookupGuid dst_snaps s = some gd →
        gs ≠ gd → s ∉ find_verified_common_snapshots src_snaps dst_snaps) ∧
    (find_verified_common_snapshots src_snaps src_snaps).Perm
      (src_snaps.map Prod.fst) := by
  haveI : IsTotal String strGe := ⟨fun a b => leChars_total b.data a.data⟩
  haveI : IsTrans String strGe :=
    ⟨fun a b c hab hbc => leChars_trans c.data b.data a.data hbc hab⟩
  have hmem : ∀ s, s ∈ find_verified_common_snapshots src_snaps dst_snaps ↔
      ∃ g, lookupGuid src_snaps s = some g ∧ lookupGuid dst_snaps s = some g := by
    intro s
    rw [find_verified_common_snapshots, List.mem_insertionSort, List.mem_map]
    constructor
    · rintro ⟨p, hp, rfl⟩
      rw [List.mem_filter] at hp
      refine ⟨p.2, mem_lookupGuid hsrc ?_, of_decide_eq_true hp.2⟩
      exact hp.1
    · rintro ⟨g, hsg, hdg⟩
      refine ⟨(s, g), ?_, rfl⟩
      rw [List.mem_filter]
      exact ⟨lookupGuid_mem hsg, decide_eq_true hdg⟩
  refine ⟨hmem, List.sorted_insertionSort strGe _, ?_, ?_⟩
  · intro s gs gd hgs hgd hne hmem'
    rcases (hmem s).mp hmem' with ⟨g, hg1, hg2⟩
    rw [hgs] at hg1
    rw [hgd] at hg2
    exact hne (by
      injection hg1 with h1
      injection hg2 with h2
      rw [h1, h2])
  · have hfilter :
        src_snaps.filter (fun p => decide (lookupGuid src_snaps p.1 = some p.2)) =
          src_snaps :=
      List.filter_eq_self.mpr fun p hp => decide_eq_true (mem_lookupGuid hsrc hp)
    rw [find_verified_common_snapshots, hfilter]
    exact List.perm_insertionSort strGe _

/-- C3 witness: two identical two-entry maps with distinct keys. -/
theorem C3_find_verified_common_witness :
    (([("b", "1"), ("a", "2")] : List (String × String)).map Prod.fst).Nodup ∧
      (find_verified_common_snapshots [("b", "1"), ("a", "2")]
          [("b", "1"), ("a", "2")]).Perm
        (([("b", "1"), ("a", "2")] : List (String × String)).map Prod.fst) :=
  ⟨by decide,
   (C3_find_verified_common [("b", "1"), ("a", "2")] [("b", "1"), ("a", "2")]
      (by decide)).2.2.2⟩

/-! ### Dry-run dispatch -/

/-- C1 counterexample: in the lib variant a read-only probe (zfs list) under
global dry-run is replaced by the synthesized success result and is not
spawned, contradicting the claim that every read-only probe still executes. -/
theorem C1_dry_run_counterexample :
    execute_command_lib_dispatch true ["zfs", "list", "tank"] =
      CmdOutcome.synthesized 0 "" "" ∧
    execute_command_lib_dispatch true ["zfs", "list", "tank"] ≠ CmdOutcome.spawned := by
  decide

/-- C1 amended: under global dry-run neither variant ever spawns a ZFS
mutating subprocess — the lib variant synthesizes a success for every command,
and the app variant synthesizes a success exactly for action commands — while
read-only zfs probes (list, get, version) still execute in the app variant
only. -/
theorem C1_dry_run_amended :
    (∀ command_args : List String,
      execute_command_lib_dispatch true command_args = CmdOutcome.synthesized 0 "" "") ∧
    (∀ (sub : String) (rest : List String), sub ∈ action_zfs →
      execute_command_app_dispatch true ("zfs" :: sub :: rest) =
        CmdOutcome.synthesized 0 "" "") ∧
    (∀ (sub : String) (rest : List String), sub ∈ read_only_zfs →
      execute_command_app_dispatch true ("zfs" :: sub :: rest) = CmdOutcome.spawned) := by
  refine ⟨fun _ => rfl, ?_, ?_⟩
  · intro sub rest hsub
    simp only [action_zfs, List.mem_cons, List.mem_singleton] at hsub
    rcases hsub with rfl | rfl | rfl | rfl | rfl | h
    · rfl
    · rfl
    · rfl
    · rfl
    · rfl
    · simp at h
  · intro sub rest hsub
    simp only [read_only_zfs, List.mem_cons, List.mem_singleton] at hsub
    rcases hsub with rfl | rfl | rfl | h
    · rfl
    · rfl
    · rfl
    · simp at h

/-- C1 witness: a concrete action command is synthesized and a concrete
read-only probe is spawned under dry-run in the app variant. -/
theorem C1_dry_run_amended_witness :
    ("snapshot" ∈ action_zfs ∧
      execute_command_app_dispatch true ["zfs", "snapshot", "tank@s1"] =
        CmdOutcome.synthesized 0 "" "") ∧
    ("list" ∈ read_only_zfs ∧
      execute_command_app_dispatch true ["zfs", "list", "tank"] = CmdOutcome.spawned) :=
  ⟨⟨by decide, C1_dry_run_amended.2.1 "snapshot" ["tank@s1"] (by decide)⟩,
   ⟨by decide, C1_dry_run_amended.2.2 "list" ["tank"] (by decide)⟩⟩

/-! ### End-of-stream forcing -/

/-- C8 counterexample: at end of stream with known total 100 and last reported
count 50 (strictly below the total), the lib monitor emits no final forcing
sample at all — the shortfall is not below ten percent of the total — refuting
the claim that such a sample is always emitted. -/
theorem C8_eof_counterexample :
    final_progress_sample (some 100) 50 = none := by
  simp only [final_progress_sample, if_pos (by norm_num : (50 : Nat) < 100)]
  norm_num

/-- C8 amended: at end of stream with a known total and reported strictly
below it, the final sample forcing completed = total is emitted exactly when
the shortfall is below ten percent of the total; otherwise nothing is emitted
(only a warning is logged), so completed bytes are never overstated on
significant divergence. -/
theorem C8_eof_amended (total reported : Nat) (h : reported < total) :
    ((total : ℚ) - (reported : ℚ) < (total : ℚ) / 10 →
      final_progress_sample (some total) reported = some (total, total)) ∧
    ((total : ℚ) / 10 ≤ (total : ℚ) - (reported : ℚ) →
      final_progress_sample (some total) reported = none) := by
  constructor
  · intro hq
    simp only [final_progress_sample, if_pos h]
    rw [if_pos]
    rw [mul_one_div]
    exact hq
  · intro hq
    simp only [final_progress_sample, if_pos h]
    rw [if_neg]
    rw [mul_one_div]
    exact not_lt.mpr hq

/-- C8 witness: reported 95 of total 100 is within ten percent, so the final
sample forces completed to the total. -/
theorem C8_eof_amended_witness :
    (95 < 100 ∧ (100 : ℚ) - (95 : ℚ) < (100 : ℚ) / 10) ∧
      final_progress_sample (some 100) 95 = some (100, 100) :=
  ⟨⟨by norm_num, by norm_num⟩,
   (C8_eof_amended 100 95 (by norm_num)).1 (by norm_num)⟩

/-! ### Remote-to-remote topology -/

theorem execute_command_run_probes (cfg : RunCfg) (oracle : List String → Option String)
    (host : String) (args : List String) :
    ((execute_command_run cfg oracle host args).1).all (fun e => !e.isStage) = true := by
  simp only [execute_command_run]
  by_cases hdry : cfg.dry_run
  · simp [hdry]
  · simp [hdry, Ev.isStage]

theorem estimate_transfer_size_full_probes (cfg : RunCfg)
    (oracle : List String → Option String) (new_snapshot : String) :
    ((estimate_transfer_size_full cfg oracle new_snapshot).1).all
      (fun e => !e.isStage) = true := by
  simp only [estimate_transfer_size_full]
  split
  · exact execute_command_run_probes cfg oracle cfg.source_host _
  · simp [List.all_append, execute_command_run_probes]

theorem get_receive_resume_token_probes (cfg : RunCfg)
    (oracle : List String → Option String) :
    ((get_receive_resume_token cfg oracle).1).all (fun e => !e.isStage) = true := by
  simp only [get_receive_resume_token]
  split
  · exact execute_command_run_probes cfg oracle cfg.dest_host _
  · exact execute_command_run_probes cfg oracle cfg.dest_host _

theorem check_command_exists_run_probes (oracle : List String → Option String)
    (c : String) :
    ((check_command_exists_run oracle c).1).all (fun e => !e.isStage) = true := by
  simp only [check_command_exists_run]
  split
  · simp [Ev.isStage]
  · split
    · simp [Ev.isStage]
    · simp [Ev.isStage]

theorem get_compression_commands_probes (cfg : RunCfg)
    (oracle : List String → Option String) :
    ((get_compression_commands cfg oracle).1).all (fun e => !e.isStage) = true := by
  simp only [get_compression_commands]
  by_cases hc : cfg.use_compression
  · simp only [hc, if_true]
    by_cases hp : (check_command_exists_run oracle "pigz").2
    · simp [hp, check_command_exists_run_probes]
    · simp only [hp, if_false, Bool.false_eq_true]
      by_cases hg : (check_command_exists_run oracle "gzip").2
      · simp [hg, List.all_append, check_command_exists_run_probes]
      · simp [hg, List.all_append, check_command_exists_run_probes]
  · simp [hc]

/-- C5 counterexample: a concrete remote-to-remote job with dry-run unset
(cfg0, hosts hostA and hostB) makes perform_full_transfer return failure, yet
exactly one subprocess has already been spawned — the size-estimation probe —
so the spawn count is not zero. -/
theorem C5_remote_remote_counterexample :
    (perform_full_transfer_run cfg0 (fun _ => some "1000") (fun _ => []) "snap1").2 =
      false ∧
    (perform_full_transfer_run cfg0 (fun _ => some "1000") (fun _ => []) "snap1").1.length =
      1 ∧
    (perform_full_transfer_run cfg0 (fun _ => some "1000") (fun _ => []) "snap1").1.length ≠
      0 := by
  refine ⟨by decide, by decide, by decide⟩

/-- C5 amended: for every job configuration whose source and destination hosts
are both remote, perform_full_transfer returns failure and never executes the
transfer pipeline — its event trace contains no pipeline-stage spawn — though
planning probes (size estimation and, when enabled, resume-token and
compression-tool checks) may already have spawned subprocesses before the
topology check. -/
theorem C5_remote_remote_amended (cfg : RunCfg) (oracle : List String → Option String)
    (stage_rcs : List (List String) → List Int) (new_snapshot_name : String)
    (hs : cfg.source_host ≠ "local") (hd : cfg.dest_host ≠ "local") :
    (perform_full_transfer_run cfg oracle stage_rcs new_snapshot_name).2 = false ∧
    ((perform_full_transfer_run cfg oracle stage_rcs new_snapshot_name).1).all
      (fun e => !e.isStage) = true := by
  have hnot : ¬(cfg.source_host = "local" ∧ cfg.dest_host = "local") := fun h => hs h.1
  simp only [perform_full_transfer_run]
  simp only [if_neg hnot, if_neg hs, if_neg hd]
  refine ⟨by trivial, ?_⟩
  simp only [List.all_append, Bool.and_eq_true]
  refine ⟨⟨estimate_transfer_size_full_probes cfg oracle new_snapshot_name, ?_⟩,
    get_compression_commands_probes cfg oracle⟩
  by_cases hr : cfg.resume_support
  · simp [hr, get_receive_resume_token_probes]
  · simp [hr]

/-- C5 witness: the amended statement applied to the concrete remote-to-remote
configuration cfg0. -/
theorem C5_remote_remote_amended_witness :
    (cfg0.source_host ≠ "local" ∧ cfg0.dest_host ≠ "local") ∧
      ((perform_full_transfer_run cfg0 (fun _ => some "1000") (fun _ => []) "snap9").2 =
          false ∧
        ((perform_full_transfer_run cfg0 (fun _ => some "1000") (fun _ => [])
              "snap9").1).all (fun e => !e.isStage) = true) :=
  ⟨⟨by decide, by decide⟩,
   C5_remote_remote_amended cfg0 (fun _ => some "1000") (fun _ => []) "snap9"
     (by decide) (by decide)⟩

end ZfsSync
